import Mathlib

set_option maxRecDepth 100000

/-!
Formal model of the ShortURL service (DonalGeraghty/ShortURL).

The embedding translates the Python sources into Lean:

* `generate_md5_code` (src/core/url_service.py, lines 15-31): the MD5 hex
  digest of the UTF-8 bytes of the URL, truncated to `length` characters.
  MD5 is implemented here in full (RFC 1321), over `Nat` with explicit
  reduction modulo 2^32.
* `store_url_mapping`, `check_url_exists`, `retrieve_url_mapping`
  (src/firebase_service.py): the two-tier store.  The module globals
  `collection_ref` (the Firestore collection handle, `None` when
  unconfigured) and `url_database` (the in-memory fallback dict) become the
  fields of `SysState`.  Python dicts preserve insertion order, and a
  Firestore collection is keyed by document id, so both tiers are modelled
  as insertion-ordered association lists with key-replacing insertion.
  Whether a given remote call raises an exception is an environmental
  input, passed as a `Bool` argument (`true` = the call succeeds); when
  `collection_ref` is `none` the flag is irrelevant.  The `created_at`
  timestamp field stored alongside each mapping is never read by any
  operation and is omitted.
* `shorten_url`, `get_long_url` (src/core/url_service.py): the core
  operations.  Python truthiness is modelled exactly: an empty string is
  falsy, so `if existing_short_code:` and `if long_url:` are translated as
  tests against `""`.
* `handle_post` (src/app.py, POST /api/data with a raw-text body): the
  boundary validation `if not input_string or not isinstance(...)` and the
  calls into the core.  Inputs are typed `String` in the embedding, so the
  `isinstance` check is always true and only the emptiness test remains.
-/

/-! ### MD5 (RFC 1321), over `Nat` with explicit mod 2^32 -/

def mask32 : Nat := 4294967295

def add32 (a b : Nat) : Nat := (a + b) % 4294967296

def not32 (a : Nat) : Nat := a ^^^ mask32

def rotl32 (x s : Nat) : Nat := ((x <<< s) ||| (x >>> (32 - s))) &&& mask32

def md5F (b c d : Nat) : Nat := (b &&& c) ||| (not32 b &&& d)

def md5G (b c d : Nat) : Nat := (d &&& b) ||| (not32 d &&& c)

def md5H (b c d : Nat) : Nat := b ^^^ c ^^^ d

def md5I (b c d : Nat) : Nat := c ^^^ (b ||| not32 d)

def md5K : List Nat := [
  0xd76aa478, 0xe8c7b756, 0x242070db, 0xc1bdceee,
  0xf57c0faf, 0x4787c62a, 0xa8304613, 0xfd469501,
  0x698098d8, 0x8b44f7af, 0xffff5bb1, 0x895cd7be,
  0x6b901122, 0xfd987193, 0xa679438e, 0x49b40821,
  0xf61e2562, 0xc040b340, 0x265e5a51, 0xe9b6c7aa,
  0xd62f105d, 0x02441453, 0xd8a1e681, 0xe7d3fbc8,
  0x21e1cde6, 0xc33707d6, 0xf4d50d87, 0x455a14ed,
  0xa9e3e905, 0xfcefa3f8, 0x676f02d9, 0x8d2a4c8a,
  0xfffa3942, 0x8771f681, 0x6d9d6122, 0xfde5380c,
  0xa4beea44, 0x4bdecfa9, 0xf6bb4b60, 0xbebfbc70,
  0x289b7ec6, 0xeaa127fa, 0xd4ef3085, 0x04881d05,
  0xd9d4d039, 0xe6db99e5, 0x1fa27cf8, 0xc4ac5665,
  0xf4292244, 0x432aff97, 0xab9423a7, 0xfc93a039,
  0x655b59c3, 0x8f0ccc92, 0xffeff47d, 0x85845dd1,
  0x6fa87e4f, 0xfe2ce6e0, 0xa3014314, 0x4e0811a1,
  0xf7537e82, 0xbd3af235, 0x2ad7d2bb, 0xeb86d391]

def md5S : List Nat := [
  7, 12, 17, 22, 7, 12, 17, 22, 7, 12, 17, 22, 7, 12, 17, 22,
  5, 9, 14, 20, 5, 9, 14, 20, 5, 9, 14, 20, 5, 9, 14, 20,
  4, 11, 16, 23, 4, 11, 16, 23, 4, 11, 16, 23, 4, 11, 16, 23,
  6, 10, 15, 21, 6, 10, 15, 21, 6, 10, 15, 21, 6, 10, 15, 21]

def md5Step (M : List Nat) (st : Nat × Nat × Nat × Nat) (i : Nat) :
    Nat × Nat × Nat × Nat :=
  let a := st.1
  let b := st.2.1
  let c := st.2.2.1
  let d := st.2.2.2
  let f :=
    if i < 16 then md5F b c d
    else if i < 32 then md5G b c d
    else if i < 48 then md5H b c d
    else md5I b c d
  let g :=
    if i < 16 then i
    else if i < 32 then (5 * i + 1) % 16
    else if i < 48 then (3 * i + 5) % 16
    else (7 * i) % 16
  let tmp := add32 (add32 (add32 a f) (md5K.getD i 0)) (M.getD g 0)
  (d, add32 b (rotl32 tmp (md5S.getD i 0)), b, c)

def md5Block (st : Nat × Nat × Nat × Nat) (M : List Nat) :
    Nat × Nat × Nat × Nat :=
  let r := List.foldl (md5Step M) st (List.range 64)
  (add32 st.1 r.1, add32 st.2.1 r.2.1,
   add32 st.2.2.1 r.2.2.1, add32 st.2.2.2 r.2.2.2)

/-- Little-endian decoding of a byte list into 32-bit words. -/
def toWords : List Nat → List Nat
  | b0 :: b1 :: b2 :: b3 :: rest =>
      (b0 + 256 * b1 + 65536 * b2 + 16777216 * b3) :: toWords rest
  | _ => []

/-- Process 512-bit blocks (16 words at a time). -/
def md5Blocks (st : Nat × Nat × Nat × Nat) : List Nat → Nat × Nat × Nat × Nat
  | w0 :: w1 :: w2 :: w3 :: w4 :: w5 :: w6 :: w7 ::
    w8 :: w9 :: w10 :: w11 :: w12 :: w13 :: w14 :: w15 :: rest =>
      md5Blocks (md5Block st
        [w0, w1, w2, w3, w4, w5, w6, w7, w8, w9, w10, w11, w12, w13, w14, w15])
        rest
  | _ => st

/-- RFC 1321 padding: append 0x80, zero bytes to 56 mod 64, then the
bit length as 8 little-endian bytes (mod 2^64). -/
def md5Pad (msg : List Nat) : List Nat :=
  let L := msg.length
  let padLen := (119 - (L % 64)) % 64
  let bitLen := (L * 8) % 18446744073709551616
  msg ++ 128 :: List.replicate padLen 0
      ++ (List.range 8).map (fun i => (bitLen >>> (8 * i)) &&& 255)

/-- Little-endian bytes of a 32-bit word. -/
def wordLE (w : Nat) : List Nat :=
  [w &&& 255, (w >>> 8) &&& 255, (w >>> 16) &&& 255, (w >>> 24) &&& 255]

/-- Lowercase-hex rendering of a byte list, two characters per byte. -/
def bytesHex : List Nat → List Char
  | [] => []
  | b :: rest => Nat.digitChar (b / 16) :: Nat.digitChar (b % 16) :: bytesHex rest

/-- The 32 lowercase hex characters of the MD5 digest of a byte list
(`hashlib.md5(...).hexdigest()`). -/
def md5HexChars (msg : List Nat) : List Char :=
  let st := md5Blocks (1732584193, 4023233417, 2562383102, 271733878)
    (toWords (md5Pad msg))
  bytesHex (wordLE st.1 ++ wordLE st.2.1 ++ wordLE st.2.2.1 ++ wordLE st.2.2.2)

/-- UTF-8 encoding of a Unicode code point (Python `str.encode()`). -/
def utf8Bytes (n : Nat) : List Nat :=
  if n < 128 then [n]
  else if n < 2048 then
    [192 ||| (n >>> 6), 128 ||| (n &&& 63)]
  else if n < 65536 then
    [224 ||| (n >>> 12), 128 ||| ((n >>> 6) &&& 63), 128 ||| (n &&& 63)]
  else
    [240 ||| (n >>> 18), 128 ||| ((n >>> 12) &&& 63),
     128 ||| ((n >>> 6) &&& 63), 128 ||| (n &&& 63)]

/-- The UTF-8 bytes of a string (`url.encode()` in the source). -/
def strBytes (s : String) : List Nat :=
  s.data.foldr (fun c acc => utf8Bytes c.toNat ++ acc) []

/-- src/core/url_service.py, `generate_md5_code(url, length=6)`:
`hashlib.md5(url.encode()).hexdigest()[:length]`.  The default argument is
passed explicitly (6) at every call site of this development. -/
def generate_md5_code (url : String) (length : Nat) : String :=
  String.mk ((md5HexChars (strBytes url)).take length)

example : String.mk (md5HexChars (strBytes "")) =
    "d41d8cd98f00b204e9800998ecf8427e" := by decide

example : String.mk (md5HexChars (strBytes "a")) =
    "0cc175b9c0f1b6a831c399e269772661" := by decide

example : String.mk (md5HexChars (strBytes "abc")) =
    "900150983cd24fb0d6963f7d28e17f72" := by decide

/-! ### The two-tier store (src/firebase_service.py) -/

/-- The module-level mutable state of src/firebase_service.py:
`collection_ref` is the Firestore collection handle (`none` when Firebase
could not be configured), modelled by the collection contents keyed by
document id; `url_database` is the in-memory fallback dict, an
insertion-ordered association list. -/
structure SysState where
  collection_ref : Option (List (String × String))
  url_database : List (String × String)
deriving DecidableEq, Repr

/-- Python dict assignment `d[k] = v` / Firestore `document(k).set(...)`:
replace in place when the key exists (keeping its position), else append. -/
def dictInsert : List (String × String) → String → String → List (String × String)
  | [], k, v => [(k, v)]
  | (k', v') :: rest, k, v =>
      if k' = k then (k, v) :: rest else (k', v') :: dictInsert rest k v

/-- Python `d.get(k)` / Firestore `document(k).get()` with its `exists` flag. -/
def dictGet : List (String × String) → String → Option String
  | [], _ => none
  | (k', v') :: rest, k => if k' = k then some v' else dictGet rest k

/-- First key whose value equals `v`, in iteration order: the
`for short_code, stored_url in url_database.items()` scan, and the
Firestore query `where('long_url', '==', v).limit(1)`. -/
def findByValue : List (String × String) → String → Option String
  | [], _ => none
  | (k', v') :: rest, v =>
      if v' = v then some k' else findByValue rest v

def keysOf (m : List (String × String)) : List String := m.map Prod.fst

/-- src/firebase_service.py, `store_url_mapping(short_code, long_url)`
(lines 81-120).  `remoteOk = false` means the Firestore `set` call raises;
the exception is caught and the mapping is written to `url_database`
instead.  Returns the function's boolean result together with the new
state. -/
def store_url_mapping (st : SysState) (remoteOk : Bool)
    (short_code long_url : String) : Bool × SysState :=
  match st.collection_ref with
  | some rdb =>
      if remoteOk then
        (true, SysState.mk (some (dictInsert rdb short_code long_url)) st.url_database)
      else
        (false, SysState.mk st.collection_ref (dictInsert st.url_database short_code long_url))
  | none =>
      (false, SysState.mk st.collection_ref (dictInsert st.url_database short_code long_url))

/-- src/firebase_service.py, `check_url_exists(long_url)` (lines 122-155).
The in-memory scan runs whenever the Firestore query is unconfigured,
raises (`remoteOk = false`), or succeeds without a match: only a
successful query *with* a match returns early.  No state is mutated. -/
def check_url_exists (st : SysState) (remoteOk : Bool)
    (long_url : String) : Option String :=
  let remoteHit : Option String :=
    match st.collection_ref with
    | some rdb => if remoteOk then findByValue rdb long_url else none
    | none => none
  match remoteHit with
  | some c => some c
  | none => findByValue st.url_database long_url

/-- src/firebase_service.py, `retrieve_url_mapping(short_code)`
(lines 157-191).  A successful Firestore `get` whose document exists
returns its `long_url` field directly (even an empty string); otherwise the
in-memory dict is consulted, where `if long_url:` makes an empty stored
string indistinguishable from absence.  No state is mutated. -/
def retrieve_url_mapping (st : SysState) (remoteOk : Bool)
    (short_code : String) : Option String :=
  let localAnswer : Option String :=
    match dictGet st.url_database short_code with
    | some u => if u = "" then none else some u
    | none => none
  match st.collection_ref with
  | some rdb =>
      if remoteOk then
        match dictGet rdb short_code with
        | some u => some u
        | none => localAnswer
      else localAnswer
  | none => localAnswer

/-! ### The core operations (src/core/url_service.py) -/

/-- src/core/url_service.py, `shorten_url(long_url)` (lines 33-81).
`okCheck` and `okStore` say whether the remote calls inside
`check_url_exists` and `store_url_mapping` succeed.  The guard
`if existing_short_code:` is Python truthiness, so an existing code equal
to `""` is treated as absent. -/
def shorten_url (st : SysState) (okCheck okStore : Bool)
    (long_url : String) : String × SysState :=
  let short_code := generate_md5_code long_url 6
  match check_url_exists st okCheck long_url with
  | some existing =>
      if existing = "" then
        (short_code, (store_url_mapping st okStore short_code long_url).2)
      else
        (existing, st)
  | none =>
      (short_code, (store_url_mapping st okStore short_code long_url).2)

/-- src/core/url_service.py, `get_long_url(short_code)` (lines 83-125).
`if long_url:` is truthiness again, and every exception is caught and
turned into `None`, so the translation is total.  The function performs no
write, which the state component of the result records. -/
def get_long_url (st : SysState) (remoteOk : Bool)
    (short_code : String) : Option String × SysState :=
  match retrieve_url_mapping st remoteOk short_code with
  | some u => (if u = "" then none else some u, st)
  | none => (none, st)

/-- src/app.py, `handle_post` (POST /api/data, raw-text body): the input
validation `if not input_string or not isinstance(input_string, str)`
returns a 400 text error before any core call; otherwise the body is
passed to `shorten_url` and the code is returned with status 200.  With
the input typed `String` the `isinstance` test is always true, leaving the
emptiness test. -/
def handle_post (st : SysState) (okCheck okStore : Bool)
    (input_string : String) : (String × Nat) × SysState :=
  if input_string = "" then
    (("Error: Please provide a valid string input", 400), st)
  else
    let r := shorten_url st okCheck okStore input_string
    ((r.1, 200), r.2)

/-- One core operation, for stating trace-level invariants. -/
inductive ServiceOp where
  | shortenOp (okCheck okStore : Bool) (long_url : String)
  | resolveOp (remoteOk : Bool) (short_code : String)

/-- The state after one core operation. -/
def stepOp (st : SysState) : ServiceOp → SysState
  | ServiceOp.shortenOp okC okS u => (shorten_url st okC okS u).2
  | ServiceOp.resolveOp ok c => (get_long_url st ok c).2

/-- Process start (module load of src/firebase_service.py): whatever the
remote configuration, `url_database = {}`. -/
def startState (remote : Option (List (String × String))) : SysState :=
  SysState.mk remote []

/-- Number of records with `long_url = u` across both tiers. -/
def countValue (st : SysState) (u : String) : Nat :=
  (st.url_database.filter (fun p => p.2 = u)).length
    + ((st.collection_ref.getD []).filter (fun p => p.2 = u)).length

/-! ### Helper lemmas -/

theorem bytesHex_length (l : List Nat) : (bytesHex l).length = 2 * l.length := by
  induction l with
  | nil => rfl
  | cons b rest ih => simp [bytesHex, ih]; ring

theorem md5HexChars_length (msg : List Nat) : (md5HexChars msg).length = 32 := by
  simp [md5HexChars, bytesHex_length, wordLE]

theorem generate_length (u : String) (n : Nat) :
    (generate_md5_code u n).length = min n 32 := by
  simp [generate_md5_code, String.length, md5HexChars_length]

theorem generate_ne_empty (u : String) : generate_md5_code u 6 ≠ "" := by
  intro h
  have h6 := generate_length u 6
  rw [h] at h6
  simp [String.length] at h6

theorem dictGet_insert_self (m : List (String × String)) (k v : String) :
    dictGet (dictInsert m k v) k = some v := by
  induction m with
  | nil => simp [dictInsert, dictGet]
  | cons p rest ih =>
      by_cases h : p.1 = k
      · simp [dictInsert, h, dictGet]
      · simp [dictInsert, h, dictGet, ih]

theorem keysOf_insert_mem (m : List (String × String)) (k v k' : String)
    (h : k' ∈ keysOf m) : k' ∈ keysOf (dictInsert m k v) := by
  induction m with
  | nil => simp [keysOf] at h
  | cons p rest ih =>
      by_cases hk : p.1 = k
      · subst hk
        simp [dictInsert, keysOf] at h ⊢
        exact h
      · simp [dictInsert, hk, keysOf] at h ⊢
        rcases h with h | h
        · exact Or.inl h
        · exact Or.inr (by simpa [keysOf] using ih (by simpa [keysOf] using h))

theorem get_long_url_snd (st : SysState) (ok : Bool) (c : String) :
    (get_long_url st ok c).2 = st := by
  cases h : retrieve_url_mapping st ok c <;> simp [get_long_url, h]

theorem store_snd_keys (st : SysState) (ok : Bool) (code u k : String)
    (h : k ∈ keysOf st.url_database) :
    k ∈ keysOf ((store_url_mapping st ok code u).2).url_database := by
  cases hc : st.collection_ref <;> cases ok <;>
    simp [store_url_mapping, hc] <;>
    first
    | exact h
    | exact keysOf_insert_mem _ _ _ _ h

/-! ### Claim theorems -/

/-- C7 (amended): for every input string `u` and every length `n ≤ 32`
(32 being the length of an MD5 hex digest), `generate_md5_code u n` has
exactly `n` characters; in particular the default `n = 6` yields a
6-character code.  For `n > 32` the truncation `hexdigest()[:length]`
caps the output at 32 characters, refuting the claim over every `n`. -/
theorem c7_length_contract (u : String) (n : Nat) (h : n ≤ 32) :
    (generate_md5_code u n).length = n := by
  rw [generate_length]
  exact Nat.min_eq_left h

/-- C7 witness: the default length 6 yields a 6-character code for a
concrete URL. -/
theorem c7_length_contract_witness :
    (generate_md5_code "https://example.com/a" 6).length = 6 :=
  c7_length_contract "https://example.com/a" 6 (by decide)

/-- C7 counterexample: at length 33 the output has 32 characters, not 33. -/
theorem c7_length_contract_cex :
    (generate_md5_code "a" 33).length ≠ 33 := by decide

/-- C9: resolve is read-only — `get_long_url` (and the
`retrieve_url_mapping` it calls, which by its very type returns no state)
leaves the local map and the remote store exactly unchanged, whether the
code is found, absent, or the remote call fails. -/
theorem c9_resolve_readonly (st : SysState) (ok : Bool) (code : String) :
    (get_long_url st ok code).2 = st :=
  get_long_url_snd st ok code

/-- C8: the local map starts empty at process start, and no core
operation (shorten or resolve, in any tier configuration and under any
remote-call outcome) ever removes a key from it. -/
theorem c8_local_map_monotonic :
    (∀ remote, (startState remote).url_database = []) ∧
    (∀ (st : SysState) (op : ServiceOp) (k : String),
      k ∈ keysOf st.url_database → k ∈ keysOf (stepOp st op).url_database) := by
  constructor
  · intro remote; rfl
  · intro st op k hk
    cases op with
    | resolveOp ok c =>
        rw [stepOp, get_long_url_snd]
        exact hk
    | shortenOp okC okS u =>
        cases hchk : check_url_exists st okC u with
        | none =>
            simp [stepOp, shorten_url, hchk]
            exact store_snd_keys _ _ _ _ _ hk
        | some e =>
            by_cases he : e = ""
            · simp [stepOp, shorten_url, hchk, he]
              exact store_snd_keys _ _ _ _ _ hk
            · simp [stepOp, shorten_url, hchk, he]
              exact hk

/-- C8 witness: a concrete key survives a concrete shorten step. -/
theorem c8_local_map_monotonic_witness :
    "k0" ∈ keysOf (stepOp (SysState.mk none [("k0", "v0")])
      (ServiceOp.shortenOp true true "u")).url_database :=
  c8_local_map_monotonic.2 (SysState.mk none [("k0", "v0")])
    (ServiceOp.shortenOp true true "u") "k0" (by decide)

/-- C6: for every code absent from both storage tiers, `get_long_url`
returns `none` (the not-found outcome) — and, the translation being total,
never raises — under every remote configuration and call outcome. -/
theorem c6_not_found_contract (st : SysState) (ok : Bool) (code : String)
    (hlocal : dictGet st.url_database code = none)
    (hremote : ∀ rdb, st.collection_ref = some rdb → dictGet rdb code = none) :
    (get_long_url st ok code).1 = none := by
  have hret : retrieve_url_mapping st ok code = none := by
    cases hc : st.collection_ref with
    | none => simp [retrieve_url_mapping, hc, hlocal]
    | some rdb =>
        cases ok <;> simp [retrieve_url_mapping, hc, hlocal, hremote rdb hc]
  simp [get_long_url, hret]

/-- C6 witness: resolving "zzzzzz" on an empty (configured) store yields
the not-found outcome. -/
theorem c6_not_found_contract_witness :
    (get_long_url (SysState.mk (some []) []) true "zzzzzz").1 = none :=
  c6_not_found_contract (SysState.mk (some []) []) true "zzzzzz" (by decide)
    (by intro rdb h; injection h with h2; subst h2; rfl)

/-- C1 (amended): for every *nonempty* URL string `u`, starting from an
empty store and with one tier consistently serving both operations
(remote unconfigured, or remote configured with all calls succeeding, or
remote configured with all calls failing), resolving the code returned by
`shorten_url u` yields `u`.  The empty URL refutes the unrestricted claim:
its stored value is falsy, so `if long_url:` reports it as not found. -/
theorem c1_round_trip (u : String) (h : u ≠ "") (cfg up : Bool) :
    (get_long_url
      (shorten_url (startState (if cfg then some [] else none)) up up u).2 up
      (shorten_url (startState (if cfg then some [] else none)) up up u).1).1
      = some u := by
  cases cfg <;> cases up <;>
    simp [startState, shorten_url, check_url_exists, store_url_mapping,
      retrieve_url_mapping, get_long_url, findByValue, dictInsert, dictGet, h]

/-- C1 witness: the round trip at a concrete URL on the unconfigured
(in-memory) tier. -/
theorem c1_round_trip_witness :
    (get_long_url
      (shorten_url (startState none) true true "https://example.com/a").2 true
      (shorten_url (startState none) true true "https://example.com/a").1).1
      = some "https://example.com/a" :=
  c1_round_trip "https://example.com/a" (by decide) false true

/-- C1 counterexample: for the empty URL string, resolve of the code
returned by shorten yields the not-found outcome, not the URL. -/
theorem c1_round_trip_cex :
    (get_long_url (shorten_url (startState none) true true "").2 true
      (shorten_url (startState none) true true "").1).1 ≠ some "" := by decide

/-- C2: for every URL string `u` (empty included), shortening twice from
an empty store with no intervening failures — remote unconfigured, or
remote configured with every call succeeding — returns the identical code
both times, and afterwards exactly one record across both tiers has
`long_url = u`. -/
theorem c2_idempotent_shorten (u : String) (cfg : Bool) :
    (shorten_url (shorten_url (startState (if cfg then some [] else none))
        true true u).2 true true u).1
      = (shorten_url (startState (if cfg then some [] else none)) true true u).1
    ∧ countValue (shorten_url (shorten_url (startState (if cfg then some [] else none))
        true true u).2 true true u).2 u = 1 := by
  cases cfg <;>
    simp [startState, shorten_url, check_url_exists, store_url_mapping,
      findByValue, dictInsert, dictGet, countValue, generate_ne_empty]

/-- C3 counterexample: a `get` whose remote call completes without error
but reports the key absent does consult the LocalStore — the result
changes with the local map's contents — and the same holds for
`find_by_value`. -/
theorem c3_remote_authoritative_cex :
    retrieve_url_mapping (SysState.mk (some []) [("c0", "u0")]) true "c0"
      = some "u0" ∧
    retrieve_url_mapping (SysState.mk (some []) []) true "c0" = none ∧
    check_url_exists (SysState.mk (some []) [("c0", "u0")]) true "u0"
      = some "c0" := by decide

/-- C3 (amended): a successful RemoteStore call that *finds* a result is
authoritative — `retrieve_url_mapping` and `check_url_exists` return it
whatever the local map holds; the LocalStore is consulted when the
RemoteStore is absent, when its call fails, and also when its call
succeeds but reports the key absent (in the latter cases the router
behaves exactly as if the remote were unconfigured). -/
theorem c3_remote_authoritative :
    (∀ (rdb loc : List (String × String)) (code v : String),
        dictGet rdb code = some v →
        retrieve_url_mapping (SysState.mk (some rdb) loc) true code = some v) ∧
    (∀ (rdb loc : List (String × String)) (url c : String),
        findByValue rdb url = some c →
        check_url_exists (SysState.mk (some rdb) loc) true url = some c) ∧
    (∀ (rdb loc : List (String × String)) (code : String),
        dictGet rdb code = none →
        retrieve_url_mapping (SysState.mk (some rdb) loc) true code
          = retrieve_url_mapping (SysState.mk none loc) true code) ∧
    (∀ (rdb loc : List (String × String)) (code : String),
        retrieve_url_mapping (SysState.mk (some rdb) loc) false code
          = retrieve_url_mapping (SysState.mk none loc) false code) := by
  refine ⟨?_, ?_, ?_, ?_⟩
  · intro rdb loc code v h
    simp [retrieve_url_mapping, h]
  · intro rdb loc url c h
    simp [check_url_exists, h]
  · intro rdb loc code h
    simp [retrieve_url_mapping, h]
  · intro rdb loc code
    simp [retrieve_url_mapping]

/-- C3 witness: each clause of the amended claim at concrete stores. -/
theorem c3_remote_authoritative_witness :
    retrieve_url_mapping (SysState.mk (some [("k", "v")]) [("k", "w")]) true "k"
      = some "v" ∧
    check_url_exists (SysState.mk (some [("k", "v")]) []) true "v" = some "k" ∧
    retrieve_url_mapping (SysState.mk (some []) [("k", "w")]) true "k"
      = retrieve_url_mapping (SysState.mk none [("k", "w")]) true "k" ∧
    retrieve_url_mapping (SysState.mk (some [("k", "v")]) [("k", "w")]) false "k"
      = retrieve_url_mapping (SysState.mk none [("k", "w")]) false "k" :=
  ⟨c3_remote_authoritative.1 [("k", "v")] [("k", "w")] "k" "v" (by decide),
   c3_remote_authoritative.2.1 [("k", "v")] [] "v" "k" (by decide),
   c3_remote_authoritative.2.2.1 [] [("k", "w")] "k" (by decide),
   c3_remote_authoritative.2.2.2 [("k", "v")] [("k", "w")] "k"⟩

/-- C4 counterexample: the core `shorten_url` does not reject the empty
string — it generates a code and performs a storage write for it. -/
theorem c4_invalid_input_cex :
    shorten_url (SysState.mk none []) true true ""
      = ("d41d8c", SysState.mk none [("d41d8c", "")]) := by decide

/-- C4 (amended): empty input is rejected at the HTTP boundary, not in the
core — `handle_post` returns a 400 client error and leaves the state
untouched (so no code generation into the store, no existence check and no
put happens for such a request), while any nonempty body is passed through
to `shorten_url` unchanged.  Non-string input cannot be represented past
the typed boundary of the embedding; in the source it is likewise caught
by the same boundary check before the core is called. -/
theorem c4_invalid_input (st : SysState) (okCheck okStore : Bool) :
    handle_post st okCheck okStore ""
      = (("Error: Please provide a valid string input", 400), st) ∧
    ∀ b : String, b ≠ "" →
      handle_post st okCheck okStore b
        = (((shorten_url st okCheck okStore b).1, 200),
           (shorten_url st okCheck okStore b).2) := by
  constructor
  · simp [handle_post]
  · intro b hb
    simp [handle_post, hb]

/-- C4 witness: the boundary at a concrete empty and nonempty body. -/
theorem c4_invalid_input_witness :
    handle_post (SysState.mk none []) true true ""
      = (("Error: Please provide a valid string input", 400), SysState.mk none []) ∧
    handle_post (SysState.mk none []) true true "u"
      = (((shorten_url (SysState.mk none []) true true "u").1, 200),
         (shorten_url (SysState.mk none []) true true "u").2) :=
  ⟨(c4_invalid_input (SysState.mk none []) true true).1,
   (c4_invalid_input (SysState.mk none []) true true).2 "u" (by decide)⟩

/-- C5 (amended): for every *nonempty* URL `u`, with the RemoteStore
configured (arbitrary contents) and every one of its calls failing,
`shorten_url` still returns the generated code without any caller-visible
failure, the mapping lands in the LocalStore alone (the remote tier is
untouched), and resolving the code returns `u` served by the LocalStore.
The empty URL refutes the unrestricted claim: shorten succeeds but the
resolve reports not-found because the stored empty string is falsy. -/
theorem c5_fallback_transparency (u : String) (h : u ≠ "")
    (rdb : List (String × String)) :
    (shorten_url (SysState.mk (some rdb) []) false false u).1
      = generate_md5_code u 6 ∧
    (shorten_url (SysState.mk (some rdb) []) false false u).2
      = SysState.mk (some rdb) [(generate_md5_code u 6, u)] ∧
    (get_long_url (shorten_url (SysState.mk (some rdb) []) false false u).2 false
      (shorten_url (SysState.mk (some rdb) []) false false u).1).1 = some u := by
  simp [shorten_url, check_url_exists, store_url_mapping, retrieve_url_mapping,
    get_long_url, findByValue, dictInsert, dictGet, h]

/-- C5 witness: the failing-remote scenario end-to-end at a concrete URL. -/
theorem c5_fallback_transparency_witness :
    (shorten_url (SysState.mk (some []) []) false false "x").1
      = generate_md5_code "x" 6 ∧
    (shorten_url (SysState.mk (some []) []) false false "x").2
      = SysState.mk (some []) [(generate_md5_code "x" 6, "x")] ∧
    (get_long_url (shorten_url (SysState.mk (some []) []) false false "x").2 false
      (shorten_url (SysState.mk (some []) []) false false "x").1).1
      = some "x" :=
  c5_fallback_transparency "x" (by decide) []

/-- C5 counterexample: with the remote configured and failing, shortening
the empty URL succeeds but resolving its code does not return it. -/
theorem c5_fallback_transparency_cex :
    (get_long_url (shorten_url (SysState.mk (some []) []) false false "").2 false
      (shorten_url (SysState.mk (some []) []) false false "").1).1
      ≠ some "" := by decide

/-- C10 (amended): for distinct URLs `u1`, `u2` whose generated codes
collide, with the remote unconfigured and `u2` *nonempty*, shortening `u1`
then `u2` from an empty store leaves the local map with the single entry
binding the code to `u2`; resolving the code returns `u2`, and no reverse
lookup reaches `u1` any more.  A nonempty `u2` is required for the resolve
clause: an overwriting empty `u2` is stored but reported not-found. -/
theorem c10_collision_overwrite (u1 u2 : String) (hne : u1 ≠ u2)
    (hcol : generate_md5_code u1 6 = generate_md5_code u2 6) (h2 : u2 ≠ "") :
    (shorten_url (shorten_url (startState none) true true u1).2
        true true u2).2.url_database
      = [(generate_md5_code u2 6, u2)] ∧
    (get_long_url (shorten_url (shorten_url (startState none) true true u1).2
        true true u2).2 true (generate_md5_code u2 6)).1 = some u2 ∧
    findByValue (shorten_url (shorten_url (startState none) true true u1).2
        true true u2).2.url_database u1 = none := by
  have hne2 : u2 ≠ u1 := Ne.symm hne
  simp [startState, shorten_url, check_url_exists, store_url_mapping,
    retrieve_url_mapping, get_long_url, findByValue, dictInsert, dictGet,
    hne, hne2, hcol, h2]

/-- C10 witness: `"u3093"` and `"u3355"` are distinct URLs whose MD5 codes
truncate to the same 6 characters; the second shorten overwrites the
first's record. -/
theorem c10_collision_overwrite_witness :
    (shorten_url (shorten_url (startState none) true true "u3093").2
        true true "u3355").2.url_database
      = [(generate_md5_code "u3355" 6, "u3355")] ∧
    (get_long_url (shorten_url (shorten_url (startState none) true true "u3093").2
        true true "u3355").2 true (generate_md5_code "u3355" 6)).1
      = some "u3355" ∧
    findByValue (shorten_url (shorten_url (startState none) true true "u3093").2
        true true "u3355").2.url_database "u3093" = none :=
  c10_collision_overwrite "u3093" "u3355" (by decide) (by decide) (by decide)

/-- C10 counterexample: `"p7671638"` and the empty string are distinct
URLs with colliding codes; after shortening both, the local map does bind
the code to the empty string, but resolving the code yields not-found
rather than the second URL, refuting the claim's resolve clause. -/
theorem c10_collision_overwrite_cex :
    ("p7671638" : String) ≠ "" ∧
    generate_md5_code "p7671638" 6 = generate_md5_code "" 6 ∧
    (shorten_url (shorten_url (startState none) true true "p7671638").2
        true true "").2.url_database = [(generate_md5_code "" 6, "")] ∧
    (get_long_url (shorten_url (shorten_url (startState none) true true "p7671638").2
        true true "").2 true (generate_md5_code "" 6)).1 = none := by decide
